import Mathlib

/-!
BinderSherpa: type-constraint reconciliation and constant coercion.

A shallow embedding of `src/binder/binder_sherpa.cpp` (namespace `terrier::binder`).

* Expression nodes live at addresses (`Ptr`); the binder state carries the nodes alive
  during the binding pass and the map `desired_expr_types_`, keyed by node address.
* `SetDesiredTypePair`, `CheckDesiredType` and `CheckAndTryPromoteType` are translated
  statement by statement. An operation that can throw returns the exception (if any)
  together with the state at the moment of return or throw.
-/

namespace terrier.binder

/-! ## Data model -/

/-- Modelled from the spec: the declaration of `type::TypeId` is not part of the translated
file; section 3 of the specification gives the closed enumeration of type tags. -/
inductive TypeId where
  | INVALID
  | TINYINT
  | SMALLINT
  | INTEGER
  | BIGINT
  | DECIMAL
  | VARCHAR
  | DATE
  | TIMESTAMP
  deriving DecidableEq, Repr

/-- An IEEE-754 binary64 value, kept as its bit pattern; no arithmetic on it is modelled. -/
structure Double where
  bits : Nat
  deriving DecidableEq, Repr

/-- Modelled from the spec: the payload classes of `execution::sql` are not part of the
translated file. `Val true` is the null-payload marker, the others are the value classes the
translated code constructs (`Integer`, `Real`, `DateVal`, `TimestampVal`) or reads (`StringVal`). -/
inductive Val where
  | Null
  | Integer (val : Int)
  | Real (val : Double)
  | DateVal (native : Nat)
  | TimestampVal (native : Nat)
  | StringVal (str : String)
  deriving DecidableEq, Repr

/-- An expression node: its resolved type and, for a constant, its payload. -/
structure AbstractExpression where
  return_value_type_ : TypeId
  value_ : Val
  deriving DecidableEq, Repr

/-- The address of an expression node; `reinterpret_cast<uintptr_t>(expr.Get())`. -/
abbrev Ptr := Nat

/-- The state a binding pass works on: the expression nodes, by address, and the
constraint store `desired_expr_types_`. -/
structure BinderSherpa where
  exprs : Ptr → AbstractExpression
  desired_expr_types_ : Ptr → Option TypeId

/-- The exceptions that can leave the translated functions. -/
inductive Exception where
  | BINDER_EXCEPTION (msg : String)
  | invalid_argument
  | out_of_range
  | bad_variant_access
  deriving DecidableEq, Repr

/-- How a call ended: it returned, or an exception propagated to the caller. -/
inductive Outcome where
  | returned
  | threw (e : Exception)
  deriving DecidableEq, Repr

/-- The expression method `GetReturnValueType`, through a pointer. -/
def GetReturnValueType (b : BinderSherpa) (expr : Ptr) : TypeId :=
  (b.exprs expr).return_value_type_

/-! ## Constraint store -/

/-- Modelled from the spec: `SetDesiredType` is defined in the header, which is not part of
the translated file. Section 4.1: `set(node, type)` records/overwrites the required type for
`node`, with no side effect beyond the mapping. -/
def SetDesiredType (b : BinderSherpa) (expr : Ptr) (type : TypeId) : BinderSherpa :=
  { b with desired_expr_types_ := fun k => if k = expr then some type else b.desired_expr_types_ k }

/-! ## Pairwise reconciliation -/

/-- Lines 15-37 of `SetDesiredTypePair`: the local variables `left_type` and `right_type`
as they stand when the comparison on line 40 is reached. -/
def workingTypes (b : BinderSherpa) (left right : Ptr) : TypeId × TypeId :=
  let left_type := TypeId.INVALID
  let right_type := TypeId.INVALID
  let has_constraints := false
  -- Check if the left type has been constrained.
  let (left_type, has_constraints) :=
    match b.desired_expr_types_ left with
    | some t => (t, true)
    | none => (left_type, has_constraints)
  -- Check if the right type has been constrained.
  let (right_type, has_constraints) :=
    match b.desired_expr_types_ right with
    | some t => (t, true)
    | none => (right_type, has_constraints)
  -- If neither has been constrained, operate off the return value type.
  if !has_constraints then
    (GetReturnValueType b left, GetReturnValueType b right)
  else
    (left_type, right_type)

/-- Lines 40-64 of `SetDesiredTypePair`, given the two local variables. -/
def promote (b : BinderSherpa) (left right : Ptr) (left_type right_type : TypeId) :
    BinderSherpa :=
  if left_type ≠ right_type then
    let is_left_maybe_null := decide (left_type = TypeId.INVALID)
    let is_left_varchar := decide (left_type = TypeId.VARCHAR)
    let is_left_integer := decide (left_type = TypeId.INTEGER)
    let b1 :=
      if right_type ≠ TypeId.INVALID ∧
          (is_left_maybe_null || is_left_varchar || is_left_integer) = true then
        SetDesiredType b left right_type
      else b
    let is_right_maybe_null := decide (right_type = TypeId.INVALID)
    let is_right_varchar := decide (right_type = TypeId.VARCHAR)
    let is_right_integer := decide (right_type = TypeId.INTEGER)
    if left_type ≠ TypeId.INVALID ∧
        (is_right_maybe_null || is_right_varchar || is_right_integer) = true then
      SetDesiredType b1 right left_type
    else b1
  else b

/-- The method `BinderSherpa::SetDesiredTypePair`. -/
def SetDesiredTypePair (b : BinderSherpa) (left right : Ptr) : BinderSherpa :=
  promote b left right (workingTypes b left right).1 (workingTypes b left right).2

/-- The type a node is required to hold: its recorded constraint if present, otherwise its
resolved type. -/
def requiredType (b : BinderSherpa) (expr : Ptr) : TypeId :=
  match b.desired_expr_types_ expr with
  | some t => t
  | none => GetReturnValueType b expr

/-- The predicate `INVALID`, `VARCHAR` or `INTEGER` of the promotion rule. -/
def isQuirk (t : TypeId) : Prop :=
  t = TypeId.INVALID ∨ t = TypeId.VARCHAR ∨ t = TypeId.INTEGER

instance (t : TypeId) : Decidable (isQuirk t) := by
  unfold isQuirk; infer_instance

/-! ## Constraint validation -/

/-- The method `BinderSherpa::CheckDesiredType`. -/
def CheckDesiredType (b : BinderSherpa) (expr : Ptr) : Outcome × BinderSherpa :=
  match b.desired_expr_types_ expr with
  | some desired =>
    if desired ≠ GetReturnValueType b expr then
      -- There was a constraint and the expression did not satisfy it. Blow up.
      (Outcome.threw (Exception.BINDER_EXCEPTION
        "BinderSherpa expected expr to have a different type."), b)
    else (Outcome.returned, b)
  | none => (Outcome.returned, b)

/-! ## Coercion engine -/

/-- The collaborators of the coercion engine that are outside the translated file: the
calendar parser `util::TimeConvertor` (a pair of a success flag and a `date_t`, resp.
`timestamp_t`, value; the format is not fixed here), the library function `std::stod`
(`none` when it throws) and the conversion of an integer to `double`. `date_t` is a 32-bit
and `timestamp_t` a 64-bit unsigned integer, hence the two bounds. -/
structure Collaborators where
  ParseDate : String → Bool × Nat
  ParseTimestamp : String → Bool × Nat
  stod : String → Option Double
  int_to_double : Int → Double
  ParseDate_lt : ∀ s, (ParseDate s).2 < 2 ^ 32
  ParseTimestamp_lt : ∀ s, (ParseTimestamp s).2 < 2 ^ 64

/-- The limit `std::numeric_limits<T>::lowest()` of a signed integer type of `bits` bits. -/
def numeric_limits_lowest (bits : Nat) : Int := -(2 ^ (bits - 1))

/-- The limit `std::numeric_limits<T>::max()` of a signed integer type of `bits` bits. -/
def numeric_limits_max (bits : Nat) : Int := 2 ^ (bits - 1) - 1

/-- Modelled from the spec: `IsRepresentable<Output>` is defined in the header, which is not
part of the translated file. Sections 4.3 and 8: the value must fit within the representable
range `[min(W), max(W)]` of the destination width. -/
def IsRepresentable (bits : Nat) (int_val : Int) : Bool :=
  decide (numeric_limits_lowest bits ≤ int_val ∧ int_val ≤ numeric_limits_max bits)

/-- The conversion `static_cast` to a signed integer type of `bits` bits (two's complement). -/
def wrapSigned (bits : Nat) (v : Int) : Int :=
  (v + 2 ^ (bits - 1)) % 2 ^ bits - 2 ^ (bits - 1)

/-- Modelled from the spec: `Peek<intN_t>` of `ConstantValueExpression` is not part of the
translated file. Section 4.3: the value is read at the native signed width of the current
type. A payload that is not an integer cannot be read this way (`none`). -/
def PeekInt (bits : Nat) (e : AbstractExpression) : Option Int :=
  match e.value_ with
  | Val.Integer v => some (wrapSigned bits v)
  | _ => none

/-- Modelled from the spec: `Peek<std::string_view>` of `ConstantValueExpression` is not part
of the translated file. Section 4.3: the text payload is read. A payload that is not text
cannot be read this way (`none`). -/
def PeekString (e : AbstractExpression) : Option String :=
  match e.value_ with
  | Val.StringVal s => some s
  | _ => none

/-- Modelled from the spec: `SetValue` of `ConstantValueExpression` is not part of the
translated file. Section 6: `write(TypeTag, value)` atomically replaces type and payload. -/
def SetValue (b : BinderSherpa) (value : Ptr) (type : TypeId) (v : Val) : BinderSherpa :=
  { b with exprs := fun k => if k = value then ⟨type, v⟩ else b.exprs k }

/-- Modelled from the spec: `ReportFailure` is defined in the header, which is not part of
the translated file. Section 6: `report_failure(message)` unwinds binding with a fatal,
caller-visible error; the statements after the call are not executed. -/
def ReportFailure (message : String) : Exception :=
  Exception.BINDER_EXCEPTION message

/-- Modelled from the spec: `TryCastNumeric<Output>` is defined in the header, which is not
part of the translated file. Section 4.3: the source value must fit within the representable
range of the destination width, otherwise it is an error; on success the node is rewritten
to the target type with the same value. The text of the message is not given by the spec. -/
def TryCastNumeric (b : BinderSherpa) (value : Ptr) (bits : Nat) (int_val : Int)
    (desired_type : TypeId) : Outcome × BinderSherpa :=
  if !IsRepresentable bits int_val then
    (Outcome.threw (Exception.BINDER_EXCEPTION "BinderSherpa TryCastNumeric value out of bounds!"),
      b)
  else
    (Outcome.returned, SetValue b value desired_type (Val.Integer int_val))

/-- Modelled from the spec: `TryCastNumericAll` is defined in the header, which is not part
of the translated file. Section 4.3: the value is re-represented at the width of the target
numeric type (any of `TINYINT`/`SMALLINT`/`INTEGER`/`BIGINT`/`DECIMAL`); conversion to
`DECIMAL` is a widening that never errors; section 7: any other target has no defined
conversion, which is fatal. The text of the message is not given by the spec. -/
def TryCastNumericAll (env : Collaborators) (b : BinderSherpa) (value : Ptr) (int_val : Int)
    (desired_type : TypeId) : Outcome × BinderSherpa :=
  match desired_type with
  | TypeId.TINYINT => TryCastNumeric b value 8 int_val desired_type
  | TypeId.SMALLINT => TryCastNumeric b value 16 int_val desired_type
  | TypeId.INTEGER => TryCastNumeric b value 32 int_val desired_type
  | TypeId.BIGINT => TryCastNumeric b value 64 int_val desired_type
  | TypeId.DECIMAL =>
    (Outcome.returned, SetValue b value desired_type (Val.Real (env.int_to_double int_val)))
  | _ =>
    (Outcome.threw
      (Exception.BINDER_EXCEPTION "BinderSherpa TryCastNumericAll not a numeric type!"), b)

/-- The function `isspace` of the C locale. -/
def isspace (c : Char) : Bool :=
  c = ' ' ∨ c = '\t' ∨ c = '\n' ∨ c = '\x0b' ∨ c = '\x0c' ∨ c = '\r'

/-- The value of a decimal digit character. -/
def digitValue (c : Char) : Nat := c.toNat - '0'.toNat

/-- The number accumulated by `strtol` over a run of digits, most significant first. -/
def accumulate (digits : List Char) : Nat :=
  digits.foldl (fun acc c => 10 * acc + digitValue c) 0

/-- The C++ library function `std::stol` with its default base 10, for a 64-bit `long`:
leading whitespace is skipped, an optional sign is read, then the longest run of decimal
digits is converted; what follows the digits is ignored. It throws `std::invalid_argument`
when there is no digit to convert and `std::out_of_range` when the value is not a `long`. -/
def stol (str : String) : Except Exception Int :=
  let s := str.toList.dropWhile isspace
  let (negative, s) :=
    match s with
    | '-' :: rest => (true, rest)
    | '+' :: rest => (false, rest)
    | _ => (false, s)
  let digits := s.takeWhile Char.isDigit
  if digits.isEmpty then
    Except.error Exception.invalid_argument
  else
    let magnitude : Int := (accumulate digits : Nat)
    let v : Int := if negative then -magnitude else magnitude
    if numeric_limits_lowest 64 ≤ v ∧ v ≤ numeric_limits_max 64 then Except.ok v
    else Except.error Exception.out_of_range

/-- The four cases `TINYINT`/`SMALLINT`/`INTEGER`/`BIGINT` of the `VARCHAR` branch (lines
137-168), which differ only in the width `bits` checked and the type written. -/
def castVarcharToInt (b : BinderSherpa) (value : Ptr) (str_view : String) (bits : Nat)
    (type : TypeId) : Outcome × BinderSherpa :=
  match stol str_view with
  | Except.error e => (Outcome.threw e, b)
  | Except.ok int_val =>
    if !IsRepresentable bits int_val then
      (Outcome.threw (Exception.BINDER_EXCEPTION
        "BinderSherpa cannot fit that VARCHAR into the desired type!"), b)
    else
      (Outcome.returned, SetValue b value type (Val.Integer int_val))

/-- The method `BinderSherpa::CheckAndTryPromoteType`. A `Peek` on a payload of the wrong
kind ends the call with `bad_variant_access`. -/
def CheckAndTryPromoteType (env : Collaborators) (b : BinderSherpa) (value : Ptr)
    (desired_type : TypeId) : Outcome × BinderSherpa :=
  let curr_type := GetReturnValueType b value
  -- Check if types are mismatched, and convert them if possible.
  if curr_type ≠ desired_type then
    match curr_type with
    -- NULL conversion.
    | TypeId.INVALID => (Outcome.returned, SetValue b value desired_type Val.Null)
    -- INTEGER casting (upwards and downwards).
    | TypeId.TINYINT =>
      match PeekInt 8 (b.exprs value) with
      | none => (Outcome.threw Exception.bad_variant_access, b)
      | some int_val => TryCastNumericAll env b value int_val desired_type
    | TypeId.SMALLINT =>
      match PeekInt 16 (b.exprs value) with
      | none => (Outcome.threw Exception.bad_variant_access, b)
      | some int_val => TryCastNumericAll env b value int_val desired_type
    | TypeId.INTEGER =>
      match PeekInt 32 (b.exprs value) with
      | none => (Outcome.threw Exception.bad_variant_access, b)
      | some int_val => TryCastNumericAll env b value int_val desired_type
    | TypeId.BIGINT =>
      match PeekInt 64 (b.exprs value) with
      | none => (Outcome.threw Exception.bad_variant_access, b)
      | some int_val => TryCastNumericAll env b value int_val desired_type
    -- DATE and TIMESTAMP conversion. String to numeric type conversion.
    | TypeId.VARCHAR =>
      match PeekString (b.exprs value) with
      | none => (Outcome.threw Exception.bad_variant_access, b)
      | some str_view =>
        match desired_type with
        | TypeId.DATE =>
          let parsed_date := env.ParseDate str_view
          if !parsed_date.1 then
            (Outcome.threw (ReportFailure "Binder conversion from VARCHAR to DATE failed."), b)
          else
            (Outcome.returned,
              SetValue b value TypeId.DATE (Val.DateVal (parsed_date.2 % 2 ^ 32)))
        | TypeId.TIMESTAMP =>
          let parsed_timestamp := env.ParseTimestamp str_view
          if !parsed_timestamp.1 then
            (Outcome.threw (ReportFailure "Binder conversion from VARCHAR to TIMESTAMP failed."),
              b)
          else
            (Outcome.returned,
              SetValue b value TypeId.TIMESTAMP (Val.TimestampVal (parsed_timestamp.2 % 2 ^ 64)))
        | TypeId.TINYINT => castVarcharToInt b value str_view 8 TypeId.TINYINT
        | TypeId.SMALLINT => castVarcharToInt b value str_view 16 TypeId.SMALLINT
        | TypeId.INTEGER => castVarcharToInt b value str_view 32 TypeId.INTEGER
        | TypeId.BIGINT => castVarcharToInt b value str_view 64 TypeId.BIGINT
        | TypeId.DECIMAL =>
          match env.stod str_view with
          | none =>
            (Outcome.threw (Exception.BINDER_EXCEPTION
              "BinderSherpa cannot fit that VARCHAR into the desired type!"), b)
          | some double_val =>
            (Outcome.returned, SetValue b value TypeId.DECIMAL (Val.Real double_val))
        | _ =>
          (Outcome.threw (Exception.BINDER_EXCEPTION
            "BinderSherpa VARCHAR cannot be cast to desired type."), b)
    | _ => (Outcome.threw (ReportFailure "Binder conversion of expression type failed."), b)
  else (Outcome.returned, b)

/-! ## Vocabulary of the coercion claims -/

/-- The width in bits of the four integer type tags (0 for the others). -/
def typeBits : TypeId → Nat
  | TypeId.TINYINT => 8
  | TypeId.SMALLINT => 16
  | TypeId.INTEGER => 32
  | TypeId.BIGINT => 64
  | _ => 0

/-- The four integer type tags. -/
def isIntegerType (t : TypeId) : Prop :=
  t = TypeId.TINYINT ∨ t = TypeId.SMALLINT ∨ t = TypeId.INTEGER ∨ t = TypeId.BIGINT

instance (t : TypeId) : Decidable (isIntegerType t) := by
  unfold isIntegerType; infer_instance

/-- The number a run of decimal digits denotes, by positional weight. -/
def decimalValue : List Char → Nat
  | [] => 0
  | c :: cs => digitValue c * 10 ^ cs.length + decimalValue cs

/-- A nonempty run of decimal digits. -/
def isDigits (ds : List Char) : Prop :=
  ds ≠ [] ∧ ∀ c ∈ ds, c.isDigit = true

instance (ds : List Char) : Decidable (isDigits ds) := by
  unfold isDigits; infer_instance

/-- A well-formed base-10 integer literal: an optional sign followed by one or more decimal
digits and nothing else. -/
def isIntegerLiteral (s : List Char) : Prop :=
  match s with
  | '-' :: ds => isDigits ds
  | '+' :: ds => isDigits ds
  | ds => isDigits ds

instance (s : List Char) : Decidable (isIntegerLiteral s) := by
  unfold isIntegerLiteral; split <;> infer_instance

/-- The integer a well-formed base-10 integer literal denotes. -/
def literalValue (s : List Char) : Int :=
  match s with
  | '-' :: ds => -(decimalValue ds : Int)
  | '+' :: ds => (decimalValue ds : Int)
  | ds => (decimalValue ds : Int)

/-- The text has something `std::stol` can convert: after leading whitespace and an optional
sign, it continues with a decimal digit. -/
def hasLeadingInteger (s : List Char) : Bool :=
  match s.dropWhile isspace with
  | '-' :: c :: _ => c.isDigit
  | '+' :: c :: _ => c.isDigit
  | c :: _ => c.isDigit
  | [] => false

/-- A sample of the collaborators: a calendar parser that accepts exactly the text
`2024-01-15` (as day 19737 after 1970-01-01, resp. that day in microseconds), and a `stod`
that accepts nothing. -/
def sampleEnv : Collaborators where
  ParseDate := fun s => if s = "2024-01-15" then (true, 19737) else (false, 0)
  ParseTimestamp := fun s => if s = "2024-01-15" then (true, 1705276800000000) else (false, 0)
  stod := fun _ => none
  int_to_double := fun _ => ⟨0⟩
  ParseDate_lt := by intro s; dsimp only; split <;> norm_num
  ParseTimestamp_lt := by intro s; dsimp only; split <;> norm_num

/-- A single constant at every address, with an empty constraint store. -/
def oneConstant (t : TypeId) (v : Val) : BinderSherpa where
  exprs := fun _ => ⟨t, v⟩
  desired_expr_types_ := fun _ => none

/-! ## Sample states -/

/-- A node of the given type with a null payload. -/
def typedNode (t : TypeId) : AbstractExpression := ⟨t, Val.Null⟩

/-- Two nodes at addresses 0 and 1 with the given types, and an empty constraint store. -/
def twoNodes (t0 t1 : TypeId) : BinderSherpa where
  exprs := fun p => if p = 0 then typedNode t0 else typedNode t1
  desired_expr_types_ := fun _ => none

/-- Node 0 (resolved `VARCHAR`) constrained to `DATE`; node 1 (resolved `DECIMAL`) unconstrained. -/
def dateThenDecimal : BinderSherpa :=
  SetDesiredType (twoNodes TypeId.VARCHAR TypeId.DECIMAL) 0 TypeId.DATE

/-- Both nodes already constrained: node 0 to `VARCHAR`, node 1 to `BIGINT`. -/
def bothConstrained : BinderSherpa :=
  SetDesiredType (SetDesiredType (twoNodes TypeId.DATE TypeId.DATE) 0 TypeId.VARCHAR) 1
    TypeId.BIGINT

/-- A NULL literal at address 0 and the `INTEGER` literal 7 at every other address, with an
empty constraint store. -/
def nullAndSeven : BinderSherpa where
  exprs := fun p => if p = 0 then ⟨TypeId.INVALID, Val.Null⟩ else ⟨TypeId.INTEGER, Val.Integer 7⟩
  desired_expr_types_ := fun _ => none

/-! ## Store writes of the reconciler -/

/-- The calls of `SetDesiredType` that lines 40-64 of `SetDesiredTypePair` make, in the
order they are made, as pairs of the node written and the type recorded. -/
def promoteWrites (left right : Ptr) (left_type right_type : TypeId) : List (Ptr × TypeId) :=
  if left_type ≠ right_type then
    let is_left_maybe_null := decide (left_type = TypeId.INVALID)
    let is_left_varchar := decide (left_type = TypeId.VARCHAR)
    let is_left_integer := decide (left_type = TypeId.INTEGER)
    let first :=
      if right_type ≠ TypeId.INVALID ∧
          (is_left_maybe_null || is_left_varchar || is_left_integer) = true then
        [(left, right_type)]
      else []
    let is_right_maybe_null := decide (right_type = TypeId.INVALID)
    let is_right_varchar := decide (right_type = TypeId.VARCHAR)
    let is_right_integer := decide (right_type = TypeId.INTEGER)
    let second :=
      if left_type ≠ TypeId.INVALID ∧
          (is_right_maybe_null || is_right_varchar || is_right_integer) = true then
        [(right, left_type)]
      else []
    first ++ second
  else []

/-- The store writes of one call of `SetDesiredTypePair`, in order. -/
def SetDesiredTypePairWrites (b : BinderSherpa) (left right : Ptr) : List (Ptr × TypeId) :=
  promoteWrites left right (workingTypes b left right).1 (workingTypes b left right).2

/-- The state after a sequence of calls of `SetDesiredType`. -/
def applyWrites (b : BinderSherpa) (writes : List (Ptr × TypeId)) : BinderSherpa :=
  writes.foldl (fun s w => SetDesiredType s w.1 w.2) b

/-- The number of writes in a sequence that go to the key of the given node. -/
def writesTo (writes : List (Ptr × TypeId)) (expr : Ptr) : Nat :=
  writes.countP (fun w => decide (w.1 = expr))

/-- The store invariant: no node is required to hold `INVALID`. -/
def NoInvalidRequirement (b : BinderSherpa) : Prop :=
  ∀ k, b.desired_expr_types_ k ≠ some TypeId.INVALID

/-- The constraint store is empty, as at the start of a binding pass. -/
def StoreEmpty (b : BinderSherpa) : Prop :=
  ∀ k, b.desired_expr_types_ k = none

/-- A sequence of calls of `SetDesiredTypePair`, one per pair of operands. -/
def SetDesiredTypePairs (b : BinderSherpa) (calls : List (Ptr × Ptr)) : BinderSherpa :=
  calls.foldl (fun s c => SetDesiredTypePair s c.1 c.2) b

/-! ## Lemmas on the constraint store and the working types -/

theorem SetDesiredType_get_same (b : BinderSherpa) (p : Ptr) (t : TypeId) :
    (SetDesiredType b p t).desired_expr_types_ p = some t := by
  simp [SetDesiredType]

theorem SetDesiredType_get_other (b : BinderSherpa) (p q : Ptr) (t : TypeId) (h : q ≠ p) :
    (SetDesiredType b p t).desired_expr_types_ q = b.desired_expr_types_ q := by
  simp [SetDesiredType, h]

theorem SetDesiredType_exprs (b : BinderSherpa) (p : Ptr) (t : TypeId) :
    (SetDesiredType b p t).exprs = b.exprs := rfl

theorem SetDesiredType_comm (b : BinderSherpa) (p q : Ptr) (s t : TypeId) (h : p ≠ q) :
    SetDesiredType (SetDesiredType b p s) q t = SetDesiredType (SetDesiredType b q t) p s := by
  simp only [SetDesiredType]
  congr 1
  funext k
  by_cases hq : k = q
  · have hp : k ≠ p := fun e => h (e.symm.trans hq)
    simp [hq, hp, Ne.symm h]
  · simp [hq]

theorem workingTypes_swap (b : BinderSherpa) (left right : Ptr) :
    workingTypes b right left = ((workingTypes b left right).2, (workingTypes b left right).1) := by
  unfold workingTypes
  cases b.desired_expr_types_ left <;> cases b.desired_expr_types_ right <;> simp

theorem workingTypes_self (b : BinderSherpa) (p : Ptr) :
    (workingTypes b p p).1 = (workingTypes b p p).2 := by
  unfold workingTypes
  cases b.desired_expr_types_ p <;> simp

theorem workingTypes_unconstrained (b : BinderSherpa) (left right : Ptr)
    (hl : b.desired_expr_types_ left = none) (hr : b.desired_expr_types_ right = none) :
    workingTypes b left right = (GetReturnValueType b left, GetReturnValueType b right) := by
  simp [workingTypes, hl, hr]

theorem workingTypes_left_only (b : BinderSherpa) (left right : Ptr) (t : TypeId)
    (hl : b.desired_expr_types_ left = some t) (hr : b.desired_expr_types_ right = none) :
    workingTypes b left right = (t, TypeId.INVALID) := by
  simp [workingTypes, hl, hr]

theorem workingTypes_ne_ptr (b : BinderSherpa) (left right : Ptr)
    (h : (workingTypes b left right).1 ≠ (workingTypes b left right).2) : left ≠ right := by
  intro e
  subst e
  exact h (workingTypes_self b left)

theorem promote_swap (b : BinderSherpa) (left right : Ptr) (x y : TypeId) (h : left ≠ right) :
    promote b left right x y = promote b right left y x := by
  unfold promote
  by_cases hxy : x = y
  · simp [hxy]
  · have hyx : y ≠ x := fun e => hxy e.symm
    simp only [hxy, hyx, ne_eq, not_false_eq_true, if_true]
    split_ifs <;> first | rfl | exact (SetDesiredType_comm b left right y x h)

/-! ## Pairwise reconciliation: claims -/

/-- C1 (as stated, refuted): with left resolved `VARCHAR` and right resolved `INTEGER`, two
distinct unconstrained nodes, the call records constraints, and afterwards the required type
of left is `INTEGER` while the required type of right is `VARCHAR`: they differ. -/
theorem C1_counterexample :
    (0 : Ptr) ≠ 1 ∧
    (twoNodes TypeId.VARCHAR TypeId.INTEGER).desired_expr_types_ 0 = none ∧
    (twoNodes TypeId.VARCHAR TypeId.INTEGER).desired_expr_types_ 1 = none ∧
    GetReturnValueType (twoNodes TypeId.VARCHAR TypeId.INTEGER) 0 = TypeId.VARCHAR ∧
    GetReturnValueType (twoNodes TypeId.VARCHAR TypeId.INTEGER) 1 = TypeId.INTEGER ∧
    (SetDesiredTypePair (twoNodes TypeId.VARCHAR TypeId.INTEGER) 0 1).desired_expr_types_ 0
      ≠ none ∧
    requiredType (SetDesiredTypePair (twoNodes TypeId.VARCHAR TypeId.INTEGER) 0 1) 0
      = TypeId.INTEGER ∧
    requiredType (SetDesiredTypePair (twoNodes TypeId.VARCHAR TypeId.INTEGER) 0 1) 1
      = TypeId.VARCHAR ∧
    requiredType (SetDesiredTypePair (twoNodes TypeId.VARCHAR TypeId.INTEGER) 0 1) 0
      ≠ requiredType (SetDesiredTypePair (twoNodes TypeId.VARCHAR TypeId.INTEGER) 0 1) 1 := by
  decide

/-- C1 (amended): for distinct nodes left, right with no recorded constraint and different
resolved types, if `SetDesiredTypePair` records at least one constraint, then: when the
resolved types are `VARCHAR` and `INTEGER` (in either order) both nodes are constrained, each
to the resolved type of the other, so the required types are swapped; in every other case the
required type of left equals the required type of right afterwards. -/
theorem C1_reconcile_unless_varchar_integer (b : BinderSherpa) (left right : Ptr)
    (hne : left ≠ right)
    (hl : b.desired_expr_types_ left = none) (hr : b.desired_expr_types_ right = none)
    (_hty : GetReturnValueType b left ≠ GetReturnValueType b right)
    (hrec : (SetDesiredTypePair b left right).desired_expr_types_ left ≠ none ∨
      (SetDesiredTypePair b left right).desired_expr_types_ right ≠ none) :
    (((GetReturnValueType b left = TypeId.VARCHAR ∧ GetReturnValueType b right = TypeId.INTEGER) ∨
        (GetReturnValueType b left = TypeId.INTEGER ∧ GetReturnValueType b right = TypeId.VARCHAR)) →
      (SetDesiredTypePair b left right).desired_expr_types_ left
          = some (GetReturnValueType b right) ∧
        (SetDesiredTypePair b left right).desired_expr_types_ right
          = some (GetReturnValueType b left) ∧
        requiredType (SetDesiredTypePair b left right) left
          ≠ requiredType (SetDesiredTypePair b left right) right) ∧
    (¬ ((GetReturnValueType b left = TypeId.VARCHAR ∧ GetReturnValueType b right = TypeId.INTEGER) ∨
        (GetReturnValueType b left = TypeId.INTEGER ∧ GetReturnValueType b right = TypeId.VARCHAR)) →
      requiredType (SetDesiredTypePair b left right) left
        = requiredType (SetDesiredTypePair b left right) right) := by
  have hne2 : right ≠ left := fun e => hne e.symm
  have hw := workingTypes_unconstrained b left right hl hr
  revert hrec
  simp only [SetDesiredTypePair, hw, promote, requiredType]
  cases hL : GetReturnValueType b left <;> cases hR : GetReturnValueType b right <;>
    simp_all [SetDesiredType, GetReturnValueType]

/-- C1 (amended), at a NULL literal next to a `BIGINT` node: left is constrained to `BIGINT`
and both required types agree. -/
theorem C1_reconcile_witness :
    requiredType (SetDesiredTypePair (twoNodes TypeId.INVALID TypeId.BIGINT) 0 1) 0
      = requiredType (SetDesiredTypePair (twoNodes TypeId.INVALID TypeId.BIGINT) 0 1) 1 :=
  (C1_reconcile_unless_varchar_integer (twoNodes TypeId.INVALID TypeId.BIGINT) 0 1
    (by decide) rfl rfl (by decide) (by decide)).2 (by decide)

/-- C2 (as stated, refuted): left is constrained to `DATE`, right is unconstrained with
resolved type `DECIMAL`; the working type of right is `INVALID`, not `DECIMAL`, and the call
writes the constraint `DATE` on right. -/
theorem C2_counterexample :
    dateThenDecimal.desired_expr_types_ 0 = some TypeId.DATE ∧
    dateThenDecimal.desired_expr_types_ 1 = none ∧
    GetReturnValueType dateThenDecimal 1 = TypeId.DECIMAL ∧
    (workingTypes dateThenDecimal 0 1).2 = TypeId.INVALID ∧
    (workingTypes dateThenDecimal 0 1).2 ≠ GetReturnValueType dateThenDecimal 1 ∧
    (SetDesiredTypePair dateThenDecimal 0 1).desired_expr_types_ 1 = some TypeId.DATE ∧
    (SetDesiredTypePair dateThenDecimal 0 1).desired_expr_types_ 1
      ≠ dateThenDecimal.desired_expr_types_ 1 := by
  decide

/-- C2 (amended): when exactly one of the two nodes has a recorded constraint, say node `c`
is constrained to `t` and node `u` is unconstrained, the working type used for `u` is
`INVALID` (in either argument order), whatever the resolved type of `u`. Consequently the
call records `t` on `u` unless `t` is `INVALID`, and writes nothing else. -/
theorem C2_unconstrained_side_is_INVALID (b : BinderSherpa) (c u : Ptr) (t : TypeId)
    (hc : b.desired_expr_types_ c = some t) (hu : b.desired_expr_types_ u = none) :
    workingTypes b c u = (t, TypeId.INVALID) ∧
    workingTypes b u c = (TypeId.INVALID, t) ∧
    SetDesiredTypePair b c u = (if t = TypeId.INVALID then b else SetDesiredType b u t) ∧
    SetDesiredTypePair b u c = (if t = TypeId.INVALID then b else SetDesiredType b u t) := by
  have h1 := workingTypes_left_only b c u t hc hu
  have h2 : workingTypes b u c = (TypeId.INVALID, t) := by
    rw [workingTypes_swap b c u, h1]
  refine ⟨h1, h2, ?_, ?_⟩
  · simp only [SetDesiredTypePair, h1, promote]
    cases t <;> simp
  · simp only [SetDesiredTypePair, h2, promote]
    cases t <;> simp

/-- C2 (amended), at left constrained to `DATE` and right unconstrained with resolved type
`DECIMAL`: the call records `DATE` on right. -/
theorem C2_unconstrained_side_witness :
    workingTypes dateThenDecimal 0 1 = (TypeId.DATE, TypeId.INVALID) ∧
    workingTypes dateThenDecimal 1 0 = (TypeId.INVALID, TypeId.DATE) ∧
    SetDesiredTypePair dateThenDecimal 0 1
      = (if TypeId.DATE = TypeId.INVALID then dateThenDecimal
          else SetDesiredType dateThenDecimal 1 TypeId.DATE) ∧
    SetDesiredTypePair dateThenDecimal 1 0
      = (if TypeId.DATE = TypeId.INVALID then dateThenDecimal
          else SetDesiredType dateThenDecimal 1 TypeId.DATE) :=
  C2_unconstrained_side_is_INVALID dateThenDecimal 0 1 TypeId.DATE (by decide) (by decide)

/-- C3: with `wL`, `wR` the working types computed on entry and `wL ≠ wR`: if `wR` is not
`INVALID` and `wL` is `INVALID`, `VARCHAR` or `INTEGER`, the store maps left to `wR` after the
call; if `wL` is not `INVALID` and `wR` is `INVALID`, `VARCHAR` or `INTEGER`, the store maps
right to `wL` after the call. This holds whatever the store held for left and right before,
so each write overwrites an earlier constraint, and the second write uses the `wL` of entry. -/
theorem C3_promotion_rule (b : BinderSherpa) (left right : Ptr)
    (hne : (workingTypes b left right).1 ≠ (workingTypes b left right).2) :
    ((workingTypes b left right).2 ≠ TypeId.INVALID → isQuirk (workingTypes b left right).1 →
      (SetDesiredTypePair b left right).desired_expr_types_ left
        = some (workingTypes b left right).2) ∧
    ((workingTypes b left right).1 ≠ TypeId.INVALID → isQuirk (workingTypes b left right).2 →
      (SetDesiredTypePair b left right).desired_expr_types_ right
        = some (workingTypes b left right).1) := by
  have hp : left ≠ right := workingTypes_ne_ptr b left right hne
  have hp2 : right ≠ left := fun e => hp e.symm
  unfold SetDesiredTypePair
  generalize (workingTypes b left right).1 = wL at hne ⊢
  generalize (workingTypes b left right).2 = wR at hne ⊢
  constructor
  · intro h1 h2
    cases wL <;> cases wR <;>
      simp_all [promote, isQuirk, SetDesiredType]
  · intro h1 h2
    cases wL <;> cases wR <;>
      simp_all [promote, isQuirk, SetDesiredType]

/-- C3, at two nodes already constrained to `VARCHAR` and `BIGINT`: the earlier constraint
of left is overwritten by `BIGINT`. -/
theorem C3_promotion_rule_witness :
    (SetDesiredTypePair bothConstrained 0 1).desired_expr_types_ 0 = some TypeId.BIGINT :=
  (C3_promotion_rule bothConstrained 0 1 (by decide)).1 (by decide) (by decide)

/-- C4: for every state and every two nodes `A`, `B`, `SetDesiredTypePair A B` and
`SetDesiredTypePair B A` produce the same state, in particular the same constraint store. -/
theorem C4_reconciler_symmetry (b : BinderSherpa) (A B : Ptr) :
    SetDesiredTypePair b A B = SetDesiredTypePair b B A ∧
    (SetDesiredTypePair b A B).desired_expr_types_
      = (SetDesiredTypePair b B A).desired_expr_types_ := by
  have h : SetDesiredTypePair b A B = SetDesiredTypePair b B A := by
    by_cases h : A = B
    · subst h; rfl
    · unfold SetDesiredTypePair
      rw [workingTypes_swap b A B]
      exact promote_swap b A B _ _ h
  exact ⟨h, by rw [h]⟩

/-! ## Constraint validation: claims -/

/-- C5: `CheckDesiredType` throws if and only if the store holds an entry for the node and
that entry differs from the resolved type of the node; the only exception it throws is the
binder exception; otherwise it returns normally; in all cases the state (store and nodes) is
unchanged. -/
theorem C5_CheckDesiredType (b : BinderSherpa) (expr : Ptr) :
    ((CheckDesiredType b expr).1 ≠ Outcome.returned ↔
      ∃ t, b.desired_expr_types_ expr = some t ∧ t ≠ GetReturnValueType b expr) ∧
    ((CheckDesiredType b expr).1 = Outcome.returned ∨
      (CheckDesiredType b expr).1 = Outcome.threw (Exception.BINDER_EXCEPTION
        "BinderSherpa expected expr to have a different type.")) ∧
    (b.desired_expr_types_ expr = none → (CheckDesiredType b expr).1 = Outcome.returned) ∧
    (b.desired_expr_types_ expr = some (GetReturnValueType b expr) →
      (CheckDesiredType b expr).1 = Outcome.returned) ∧
    (CheckDesiredType b expr).2 = b := by
  unfold CheckDesiredType
  cases h : b.desired_expr_types_ expr with
  | none => simp
  | some t =>
    by_cases ht : t = GetReturnValueType b expr
    · simp [ht]
    · simp [ht]

/-- C5, at an unconstrained node of resolved type `INVALID`: the call returns normally and
the state is unchanged. -/
theorem C5_CheckDesiredType_witness :
    (CheckDesiredType (twoNodes TypeId.INVALID TypeId.INTEGER) 0).1 = Outcome.returned ∧
    (CheckDesiredType (twoNodes TypeId.INVALID TypeId.INTEGER) 0).2
      = twoNodes TypeId.INVALID TypeId.INTEGER :=
  ⟨(C5_CheckDesiredType (twoNodes TypeId.INVALID TypeId.INTEGER) 0).2.2.1 rfl,
    (C5_CheckDesiredType (twoNodes TypeId.INVALID TypeId.INTEGER) 0).2.2.2.2⟩

/-! ## Lemmas on the coercion engine -/

theorem SetValue_exprs_same (b : BinderSherpa) (p : Ptr) (t : TypeId) (v : Val) :
    (SetValue b p t v).exprs p = ⟨t, v⟩ := by
  simp [SetValue]

theorem wrapSigned_of_representable (bits : Nat) (v : Int) (hb : 0 < bits)
    (h : numeric_limits_lowest bits ≤ v ∧ v ≤ numeric_limits_max bits) :
    wrapSigned bits v = v := by
  obtain ⟨k, rfl⟩ : ∃ k, bits = k + 1 := ⟨bits - 1, by omega⟩
  simp only [numeric_limits_lowest, numeric_limits_max, Nat.add_sub_cancel] at h
  simp only [wrapSigned, Nat.add_sub_cancel, pow_succ]
  have hpos : (0 : Int) < 2 ^ k := by positivity
  rw [Int.emod_eq_of_lt (by omega) (by omega)]
  omega

theorem typeBits_pos (t : TypeId) (h : isIntegerType t) : 0 < typeBits t := by
  rcases h with h | h | h | h <;> subst h <;> decide

theorem IsRepresentable_iff (bits : Nat) (v : Int) :
    IsRepresentable bits v = true ↔
      numeric_limits_lowest bits ≤ v ∧ v ≤ numeric_limits_max bits := by
  simp [IsRepresentable]

theorem TryCastNumeric_outcome (b : BinderSherpa) (p : Ptr) (bits : Nat) (v : Int) (t : TypeId) :
    ((TryCastNumeric b p bits v t).1 = Outcome.returned ↔ IsRepresentable bits v = true) ∧
    (IsRepresentable bits v = true →
      (TryCastNumeric b p bits v t).2 = SetValue b p t (Val.Integer v)) ∧
    (IsRepresentable bits v = false → (TryCastNumeric b p bits v t).2 = b) := by
  unfold TryCastNumeric
  cases h : IsRepresentable bits v <;> simp

/-- An integer constant coerced to another integer type goes through `TryCastNumeric` at the
width of the target, with the value it holds. -/
theorem CheckAndTryPromoteType_int_int (env : Collaborators) (b : BinderSherpa) (value : Ptr)
    (v : Int) (desired_type : TypeId)
    (hcur : isIntegerType (GetReturnValueType b value))
    (hval : (b.exprs value).value_ = Val.Integer v)
    (hv : numeric_limits_lowest (typeBits (GetReturnValueType b value)) ≤ v ∧
      v ≤ numeric_limits_max (typeBits (GetReturnValueType b value)))
    (hdes : isIntegerType desired_type)
    (hne : GetReturnValueType b value ≠ desired_type) :
    CheckAndTryPromoteType env b value desired_type
      = TryCastNumeric b value (typeBits desired_type) v desired_type := by
  have hw := wrapSigned_of_representable _ v (typeBits_pos _ hcur) hv
  unfold CheckAndTryPromoteType
  rcases hcur with h | h | h | h <;> rcases hdes with d | d | d | d <;>
    simp_all [PeekInt, TryCastNumericAll, typeBits]

/-! ## Integer coercion: claims -/

/-- C6: narrowing range law. For a constant of integer type holding `v` and a strictly
narrower integer target `W`, `CheckAndTryPromoteType` returns normally if and only if
`min(W) ≤ v ≤ max(W)`; then the node has type `W`, holds `v` and reads back `v` at the width
of `W`; otherwise the call throws and the state (type and payload of the node included) is
unchanged. -/
theorem C6_narrowing_range_law (env : Collaborators) (b : BinderSherpa) (value : Ptr)
    (v : Int) (W : TypeId)
    (hcur : isIntegerType (GetReturnValueType b value))
    (hval : (b.exprs value).value_ = Val.Integer v)
    (hv : numeric_limits_lowest (typeBits (GetReturnValueType b value)) ≤ v ∧
      v ≤ numeric_limits_max (typeBits (GetReturnValueType b value)))
    (hW : isIntegerType W)
    (hnarrow : typeBits W < typeBits (GetReturnValueType b value)) :
    ((CheckAndTryPromoteType env b value W).1 = Outcome.returned ↔
      numeric_limits_lowest (typeBits W) ≤ v ∧ v ≤ numeric_limits_max (typeBits W)) ∧
    ((CheckAndTryPromoteType env b value W).1 = Outcome.returned →
      (CheckAndTryPromoteType env b value W).2.exprs value = ⟨W, Val.Integer v⟩ ∧
      PeekInt (typeBits W) ((CheckAndTryPromoteType env b value W).2.exprs value) = some v) ∧
    ((CheckAndTryPromoteType env b value W).1 ≠ Outcome.returned →
      (CheckAndTryPromoteType env b value W).2 = b) := by
  have hne : GetReturnValueType b value ≠ W := by
    intro e
    rw [e] at hnarrow
    exact absurd hnarrow (lt_irrefl _)
  rw [CheckAndTryPromoteType_int_int env b value v W hcur hval hv hW hne]
  obtain ⟨h1, h2, h3⟩ := TryCastNumeric_outcome b value (typeBits W) v W
  refine ⟨by rw [h1, IsRepresentable_iff], ?_, ?_⟩
  · intro hr
    have hrep := h1.mp hr
    rw [h2 hrep, SetValue_exprs_same]
    refine ⟨rfl, ?_⟩
    simp only [PeekInt]
    rw [wrapSigned_of_representable _ v (typeBits_pos W hW) ((IsRepresentable_iff _ _).mp hrep)]
  · intro hr
    apply h3
    cases hrep : IsRepresentable (typeBits W) v
    · rfl
    · exact absurd (h1.mpr hrep) hr

/-- C6, at `BIGINT` 300 coerced to `TINYINT`: the call throws and the node is still
`BIGINT` 300. -/
theorem C6_narrowing_witness :
    (CheckAndTryPromoteType sampleEnv (oneConstant TypeId.BIGINT (Val.Integer 300)) 0
      TypeId.TINYINT).1 ≠ Outcome.returned ∧
    (CheckAndTryPromoteType sampleEnv (oneConstant TypeId.BIGINT (Val.Integer 300)) 0
      TypeId.TINYINT).2 = oneConstant TypeId.BIGINT (Val.Integer 300) ∧
    (oneConstant TypeId.BIGINT (Val.Integer 300)).exprs 0
      = ⟨TypeId.BIGINT, Val.Integer 300⟩ := by
  have h := C6_narrowing_range_law sampleEnv (oneConstant TypeId.BIGINT (Val.Integer 300)) 0
    300 TypeId.TINYINT (by decide) rfl (by decide) (by decide) (by decide)
  have hf : (CheckAndTryPromoteType sampleEnv (oneConstant TypeId.BIGINT (Val.Integer 300)) 0
      TypeId.TINYINT).1 ≠ Outcome.returned := fun e => absurd (h.1.mp e) (by decide)
  exact ⟨hf, h.2.2 hf, rfl⟩

/-- C7: round-trip widening. For a constant of integer type `W1` holding a value `v`
representable in `W1` and a strictly wider integer target `W2`, `CheckAndTryPromoteType`
returns normally, and afterwards the node has type `W2`, holds `v` and reads back `v` at the
width of `W2`. -/
theorem C7_roundtrip_widening (env : Collaborators) (b : BinderSherpa) (value : Ptr)
    (v : Int) (W2 : TypeId)
    (hcur : isIntegerType (GetReturnValueType b value))
    (hval : (b.exprs value).value_ = Val.Integer v)
    (hv : numeric_limits_lowest (typeBits (GetReturnValueType b value)) ≤ v ∧
      v ≤ numeric_limits_max (typeBits (GetReturnValueType b value)))
    (hW : isIntegerType W2)
    (hwide : typeBits (GetReturnValueType b value) < typeBits W2) :
    (CheckAndTryPromoteType env b value W2).1 = Outcome.returned ∧
    (CheckAndTryPromoteType env b value W2).2.exprs value = ⟨W2, Val.Integer v⟩ ∧
    PeekInt (typeBits W2) ((CheckAndTryPromoteType env b value W2).2.exprs value) = some v := by
  have hne : GetReturnValueType b value ≠ W2 := by
    intro e
    rw [e] at hwide
    exact absurd hwide (lt_irrefl _)
  have hmono : numeric_limits_lowest (typeBits W2) ≤ v ∧ v ≤ numeric_limits_max (typeBits W2) := by
    rcases hcur with h | h | h | h <;> rcases hW with d | d | d | d <;>
      simp only [h, d, typeBits, numeric_limits_lowest, numeric_limits_max] at hv hwide ⊢ <;>
      first
        | exact absurd hwide (by decide)
        | (norm_num at hv ⊢; omega)
  have hrep : IsRepresentable (typeBits W2) v = true := (IsRepresentable_iff _ _).mpr hmono
  rw [CheckAndTryPromoteType_int_int env b value v W2 hcur hval hv hW hne]
  obtain ⟨h1, h2, _⟩ := TryCastNumeric_outcome b value (typeBits W2) v W2
  refine ⟨h1.mpr hrep, ?_, ?_⟩
  · rw [h2 hrep, SetValue_exprs_same]
  · rw [h2 hrep, SetValue_exprs_same]
    simp only [PeekInt]
    rw [wrapSigned_of_representable _ v (typeBits_pos W2 hW) hmono]

/-- C7, at `TINYINT` -128 widened to `BIGINT`. -/
theorem C7_roundtrip_widening_witness :
    (CheckAndTryPromoteType sampleEnv (oneConstant TypeId.TINYINT (Val.Integer (-128))) 0
      TypeId.BIGINT).1 = Outcome.returned ∧
    (CheckAndTryPromoteType sampleEnv (oneConstant TypeId.TINYINT (Val.Integer (-128))) 0
      TypeId.BIGINT).2.exprs 0 = ⟨TypeId.BIGINT, Val.Integer (-128)⟩ ∧
    PeekInt (typeBits TypeId.BIGINT)
      ((CheckAndTryPromoteType sampleEnv (oneConstant TypeId.TINYINT (Val.Integer (-128))) 0
        TypeId.BIGINT).2.exprs 0) = some (-128) :=
  C7_roundtrip_widening sampleEnv (oneConstant TypeId.TINYINT (Val.Integer (-128))) 0
    (-128) TypeId.BIGINT (by decide) rfl (by decide) (by decide) (by decide)

/-! ## Lemmas on `std::stol` -/

theorem foldl_digits (ds : List Char) (acc : Nat) :
    ds.foldl (fun a c => 10 * a + digitValue c) acc = acc * 10 ^ ds.length + decimalValue ds := by
  induction ds generalizing acc with
  | nil => simp [decimalValue]
  | cons c cs ih =>
    simp only [List.foldl_cons, ih, decimalValue, List.length_cons, pow_succ]
    ring

theorem accumulate_eq_decimalValue (ds : List Char) : accumulate ds = decimalValue ds := by
  simp [accumulate, foldl_digits]

theorem isspace_of_isDigit (c : Char) (h : c.isDigit = true) : isspace c = false := by
  by_contra hs
  simp only [isspace, Bool.not_eq_false, decide_eq_true_eq] at hs
  rcases hs with rfl | rfl | rfl | rfl | rfl | rfl <;> exact absurd h (by decide)

theorem takeWhile_isDigit_of_isDigits (ds : List Char) (h : isDigits ds) :
    ds.takeWhile Char.isDigit = ds :=
  List.takeWhile_eq_self_iff.mpr h.2

/-- On a well-formed base-10 integer literal, `std::stol` returns the integer the literal
denotes when it is a 64-bit `long`, and throws `std::out_of_range` otherwise. -/
theorem stol_of_isIntegerLiteral (str : String) (h : isIntegerLiteral str.toList) :
    stol str =
      if numeric_limits_lowest 64 ≤ literalValue str.toList ∧
          literalValue str.toList ≤ numeric_limits_max 64 then
        Except.ok (literalValue str.toList)
      else Except.error Exception.out_of_range := by
  unfold stol
  generalize str.toList = s at h ⊢
  match s, h with
  | [], h => exact absurd rfl h.1
  | c :: cs, h =>
    by_cases hm : c = '-'
    · subst hm
      have hd : isDigits cs := h
      have hne : cs ≠ [] := hd.1
      simp [isspace, literalValue, takeWhile_isDigit_of_isDigits cs hd, hne,
        accumulate_eq_decimalValue]
    · by_cases hp : c = '+'
      · subst hp
        have hd : isDigits cs := h
        have hne : cs ≠ [] := hd.1
        simp [isspace, literalValue, takeWhile_isDigit_of_isDigits cs hd, hne,
          accumulate_eq_decimalValue]
      · have hd : isDigits (c :: cs) := by
          simpa [isIntegerLiteral, hm, hp] using h
        have hsp : isspace c = false := isspace_of_isDigit c (hd.2 c (List.mem_cons_self _ _))
        simp [List.dropWhile_cons, hsp, literalValue, hm, hp,
          takeWhile_isDigit_of_isDigits (c :: cs) hd, accumulate_eq_decimalValue]

theorem range_check_ne_invalid_argument (v : Int) :
    (if numeric_limits_lowest 64 ≤ v ∧ v ≤ numeric_limits_max 64 then
      (Except.ok v : Except Exception Int)
    else Except.error Exception.out_of_range) ≠ Except.error Exception.invalid_argument := by
  split_ifs <;> simp

/-- The function `std::stol` throws `std::invalid_argument` exactly on the texts without a
leading integer. -/
theorem stol_invalid_argument_iff (str : String) :
    stol str = Except.error Exception.invalid_argument ↔ hasLeadingInteger str.toList = false := by
  unfold stol hasLeadingInteger
  generalize str.toList.dropWhile isspace = s
  match s with
  | [] => simp
  | [c] =>
    by_cases hm : c = '-'
    · subst hm; simp
    · by_cases hp : c = '+'
      · subst hp; simp
      · cases hd : c.isDigit
        · simp [hm, hp, List.takeWhile_cons, hd]
        · simp [hm, hp, List.takeWhile_cons, hd]
          exact range_check_ne_invalid_argument _
  | c :: d :: cs =>
    by_cases hm : c = '-'
    · subst hm
      cases hd : d.isDigit
      · simp [List.takeWhile_cons, hd]
      · simp [List.takeWhile_cons, hd]
        exact range_check_ne_invalid_argument _
    · by_cases hp : c = '+'
      · subst hp
        cases hd : d.isDigit
        · simp [List.takeWhile_cons, hd]
        · simp [List.takeWhile_cons, hd]
          exact range_check_ne_invalid_argument _
      · cases hd : c.isDigit
        · simp [hm, hp, List.takeWhile_cons, hd]
        · simp [hm, hp, List.takeWhile_cons, hd]
          exact range_check_ne_invalid_argument _

/-! ## Lemmas on the `VARCHAR` branch -/

theorem castVarcharToInt_failure_unchanged (b : BinderSherpa) (value : Ptr) (str : String)
    (bits : Nat) (t : TypeId) (h : (castVarcharToInt b value str bits t).1 ≠ Outcome.returned) :
    (castVarcharToInt b value str bits t).2 = b := by
  unfold castVarcharToInt at h ⊢
  cases hs : stol str with
  | error e => rfl
  | ok v =>
    cases hr : IsRepresentable bits v
    · simp [hr]
    · simp [hs, hr] at h

theorem castVarcharToInt_invalid_argument (b : BinderSherpa) (value : Ptr) (str : String)
    (bits : Nat) (t : TypeId) :
    (castVarcharToInt b value str bits t).1 = Outcome.threw Exception.invalid_argument ↔
      hasLeadingInteger str.toList = false := by
  rw [← stol_invalid_argument_iff]
  unfold castVarcharToInt
  cases hs : stol str with
  | error e => simp
  | ok v => cases hr : IsRepresentable bits v <;> simp [hr]

/-- A `VARCHAR` constant coerced to an integer type goes through `std::stol` and the range
check at the width of the target. -/
theorem CheckAndTryPromoteType_varchar_int (env : Collaborators) (b : BinderSherpa)
    (value : Ptr) (str : String) (W : TypeId)
    (hcur : GetReturnValueType b value = TypeId.VARCHAR)
    (hval : (b.exprs value).value_ = Val.StringVal str)
    (hW : isIntegerType W) :
    CheckAndTryPromoteType env b value W = castVarcharToInt b value str (typeBits W) W := by
  unfold CheckAndTryPromoteType
  rcases hW with d | d | d | d <;> subst d <;> simp [hcur, PeekString, hval, typeBits]

theorem representable_64_of_representable (W : TypeId) (hW : isIntegerType W) (n : Int)
    (h : numeric_limits_lowest (typeBits W) ≤ n ∧ n ≤ numeric_limits_max (typeBits W)) :
    numeric_limits_lowest 64 ≤ n ∧ n ≤ numeric_limits_max 64 := by
  rcases hW with d | d | d | d <;> subst d <;>
    simp only [typeBits, numeric_limits_lowest, numeric_limits_max] at h ⊢ <;>
    (norm_num at h ⊢; omega)

/-! ## Text coercion: claims -/

/-- C8: text-to-integer range law. For a `VARCHAR` constant whose text is a well-formed
base-10 integer literal denoting `n` and an integer target `W`, `CheckAndTryPromoteType`
returns normally if and only if `n` lies in the signed range of `W`; then the node has type
`W` and value `n`; otherwise (also for `n` outside the 64-bit range) the call throws and the
state (type and payload of the node included) is unchanged. -/
theorem C8_text_to_integer_range_law (env : Collaborators) (b : BinderSherpa) (value : Ptr)
    (str : String) (W : TypeId)
    (hcur : GetReturnValueType b value = TypeId.VARCHAR)
    (hval : (b.exprs value).value_ = Val.StringVal str)
    (hlit : isIntegerLiteral str.toList)
    (hW : isIntegerType W) :
    ((CheckAndTryPromoteType env b value W).1 = Outcome.returned ↔
      numeric_limits_lowest (typeBits W) ≤ literalValue str.toList ∧
        literalValue str.toList ≤ numeric_limits_max (typeBits W)) ∧
    ((CheckAndTryPromoteType env b value W).1 = Outcome.returned →
      (CheckAndTryPromoteType env b value W).2.exprs value
        = ⟨W, Val.Integer (literalValue str.toList)⟩) ∧
    ((CheckAndTryPromoteType env b value W).1 ≠ Outcome.returned →
      (CheckAndTryPromoteType env b value W).2 = b) := by
  rw [CheckAndTryPromoteType_varchar_int env b value str W hcur hval hW]
  refine ⟨?_, ?_, castVarcharToInt_failure_unchanged b value str _ W⟩
  · unfold castVarcharToInt
    rw [stol_of_isIntegerLiteral str hlit]
    generalize literalValue str.toList = n
    by_cases h64 : numeric_limits_lowest 64 ≤ n ∧ n ≤ numeric_limits_max 64
    · rw [if_pos h64]
      cases hr : IsRepresentable (typeBits W) n
      · have := (IsRepresentable_iff (typeBits W) n).not.mp (by simp [hr])
        simp [hr, this]
      · have := (IsRepresentable_iff (typeBits W) n).mp hr
        simp [hr, this]
    · rw [if_neg h64]
      have : ¬ (numeric_limits_lowest (typeBits W) ≤ n ∧ n ≤ numeric_limits_max (typeBits W)) :=
        fun h => h64 (representable_64_of_representable W hW _ h)
      simp [this]
  · unfold castVarcharToInt
    rw [stol_of_isIntegerLiteral str hlit]
    generalize literalValue str.toList = n
    by_cases h64 : numeric_limits_lowest 64 ≤ n ∧ n ≤ numeric_limits_max 64
    · rw [if_pos h64]
      cases hr : IsRepresentable (typeBits W) n
      · simp [hr]
      · simp [hr, SetValue]
    · rw [if_neg h64]
      simp

/-- C8, at the text `300`: coercion to `TINYINT` throws and leaves the state unchanged. -/
theorem C8_text_to_integer_witness :
    (CheckAndTryPromoteType sampleEnv (oneConstant TypeId.VARCHAR (Val.StringVal "300")) 0
      TypeId.TINYINT).1 ≠ Outcome.returned ∧
    (CheckAndTryPromoteType sampleEnv (oneConstant TypeId.VARCHAR (Val.StringVal "300")) 0
      TypeId.TINYINT).2 = oneConstant TypeId.VARCHAR (Val.StringVal "300") := by
  have h := C8_text_to_integer_range_law sampleEnv
    (oneConstant TypeId.VARCHAR (Val.StringVal "300")) 0 "300" TypeId.TINYINT rfl rfl
    (by decide) (by decide)
  have hf : (CheckAndTryPromoteType sampleEnv (oneConstant TypeId.VARCHAR (Val.StringVal "300"))
      0 TypeId.TINYINT).1 ≠ Outcome.returned := fun e => absurd (h.1.mp e) (by decide)
  exact ⟨hf, h.2.2 hf⟩

/-- C9 (as stated, refuted): the texts `12abc` and ` 12` are not well-formed base-10 integer
literals, yet coercion to `TINYINT` returns normally and rewrites the node to `TINYINT` 12. -/
theorem C9_counterexample :
    ¬ isIntegerLiteral "12abc".toList ∧
    (CheckAndTryPromoteType sampleEnv (oneConstant TypeId.VARCHAR (Val.StringVal "12abc")) 0
      TypeId.TINYINT).1 = Outcome.returned ∧
    (CheckAndTryPromoteType sampleEnv (oneConstant TypeId.VARCHAR (Val.StringVal "12abc")) 0
      TypeId.TINYINT).2.exprs 0 = ⟨TypeId.TINYINT, Val.Integer 12⟩ ∧
    ¬ isIntegerLiteral " 12".toList ∧
    (CheckAndTryPromoteType sampleEnv (oneConstant TypeId.VARCHAR (Val.StringVal " 12")) 0
      TypeId.TINYINT).1 = Outcome.returned ∧
    (CheckAndTryPromoteType sampleEnv (oneConstant TypeId.VARCHAR (Val.StringVal " 12")) 0
      TypeId.TINYINT).2.exprs 0 = ⟨TypeId.TINYINT, Val.Integer 12⟩ := by
  decide

/-- C9 (amended): for a `VARCHAR` constant and an integer target, `CheckAndTryPromoteType`
fails with the parse error `std::invalid_argument` exactly when the text has no leading
integer (after leading whitespace and an optional sign no decimal digit follows); leading
whitespace and what follows the digits are ignored. Whenever the call fails the state is
unchanged. For the target `DECIMAL` the call fails exactly when `std::stod` rejects the text,
and then the state is unchanged. -/
theorem C9_unparsable_text (env : Collaborators) (b : BinderSherpa) (value : Ptr)
    (str : String)
    (hcur : GetReturnValueType b value = TypeId.VARCHAR)
    (hval : (b.exprs value).value_ = Val.StringVal str) :
    (∀ W, isIntegerType W →
      ((CheckAndTryPromoteType env b value W).1 = Outcome.threw Exception.invalid_argument ↔
        hasLeadingInteger str.toList = false) ∧
      ((CheckAndTryPromoteType env b value W).1 ≠ Outcome.returned →
        (CheckAndTryPromoteType env b value W).2 = b)) ∧
    ((CheckAndTryPromoteType env b value TypeId.DECIMAL).1 ≠ Outcome.returned ↔
      env.stod str = none) ∧
    ((CheckAndTryPromoteType env b value TypeId.DECIMAL).1 ≠ Outcome.returned →
      (CheckAndTryPromoteType env b value TypeId.DECIMAL).2 = b) := by
  refine ⟨?_, ?_, ?_⟩
  · intro W hW
    rw [CheckAndTryPromoteType_varchar_int env b value str W hcur hval hW]
    exact ⟨castVarcharToInt_invalid_argument b value str _ W,
      castVarcharToInt_failure_unchanged b value str _ W⟩
  · unfold CheckAndTryPromoteType
    cases hs : env.stod str <;> simp [hcur, PeekString, hval, hs]
  · unfold CheckAndTryPromoteType
    cases hs : env.stod str <;> simp [hcur, PeekString, hval, hs]

/-- C9 (amended), at the text `abc`: coercion to `BIGINT` fails with `std::invalid_argument`
and leaves the state unchanged. -/
theorem C9_unparsable_text_witness :
    (CheckAndTryPromoteType sampleEnv (oneConstant TypeId.VARCHAR (Val.StringVal "abc")) 0
      TypeId.BIGINT).1 = Outcome.threw Exception.invalid_argument ∧
    (CheckAndTryPromoteType sampleEnv (oneConstant TypeId.VARCHAR (Val.StringVal "abc")) 0
      TypeId.BIGINT).2 = oneConstant TypeId.VARCHAR (Val.StringVal "abc") := by
  have h := (C9_unparsable_text sampleEnv (oneConstant TypeId.VARCHAR (Val.StringVal "abc")) 0
    "abc" rfl rfl).1 TypeId.BIGINT (by decide)
  have hf := h.1.mpr (by decide)
  exact ⟨hf, h.2 (by rw [hf]; decide)⟩

/-- C10: text-to-date/timestamp coercion. For a `VARCHAR` constant with text `s` and target
`DATE` (resp. `TIMESTAMP`), `CheckAndTryPromoteType` returns normally if and only if the
calendar parser accepts `s`; then the node has type `DATE` (resp. `TIMESTAMP`) and holds
exactly the value the parser returned; if the parser rejects `s`, the binder exception is
thrown and the state (type and payload of the node included) is unchanged. -/
theorem C10_text_to_date_timestamp (env : Collaborators) (b : BinderSherpa) (value : Ptr)
    (s : String)
    (hcur : GetReturnValueType b value = TypeId.VARCHAR)
    (hval : (b.exprs value).value_ = Val.StringVal s) :
    (((CheckAndTryPromoteType env b value TypeId.DATE).1 = Outcome.returned ↔
        (env.ParseDate s).1 = true) ∧
      ((env.ParseDate s).1 = true →
        (CheckAndTryPromoteType env b value TypeId.DATE).2.exprs value
          = ⟨TypeId.DATE, Val.DateVal (env.ParseDate s).2⟩) ∧
      ((env.ParseDate s).1 = false →
        (CheckAndTryPromoteType env b value TypeId.DATE).1
          = Outcome.threw (Exception.BINDER_EXCEPTION
              "Binder conversion from VARCHAR to DATE failed.") ∧
        (CheckAndTryPromoteType env b value TypeId.DATE).2 = b)) ∧
    (((CheckAndTryPromoteType env b value TypeId.TIMESTAMP).1 = Outcome.returned ↔
        (env.ParseTimestamp s).1 = true) ∧
      ((env.ParseTimestamp s).1 = true →
        (CheckAndTryPromoteType env b value TypeId.TIMESTAMP).2.exprs value
          = ⟨TypeId.TIMESTAMP, Val.TimestampVal (env.ParseTimestamp s).2⟩) ∧
      ((env.ParseTimestamp s).1 = false →
        (CheckAndTryPromoteType env b value TypeId.TIMESTAMP).1
          = Outcome.threw (Exception.BINDER_EXCEPTION
              "Binder conversion from VARCHAR to TIMESTAMP failed.") ∧
        (CheckAndTryPromoteType env b value TypeId.TIMESTAMP).2 = b)) := by
  have hd : (env.ParseDate s).2 < 4294967296 := by
    have := env.ParseDate_lt s
    norm_num at this
    exact this
  have ht : (env.ParseTimestamp s).2 < 18446744073709551616 := by
    have := env.ParseTimestamp_lt s
    norm_num at this
    exact this
  unfold CheckAndTryPromoteType
  constructor
  · cases hp : (env.ParseDate s).1 <;>
      simp [hcur, PeekString, hval, hp, hd, ReportFailure, SetValue]
  · cases hp : (env.ParseTimestamp s).1 <;>
      simp [hcur, PeekString, hval, hp, ht, ReportFailure, SetValue]

/-- C10, with the sample calendar parser: the text `2024-01-15` is rewritten to a `DATE`,
the text `not-a-date` fails and the node is still `VARCHAR` with that text. -/
theorem C10_text_to_date_witness :
    ((CheckAndTryPromoteType sampleEnv (oneConstant TypeId.VARCHAR (Val.StringVal "2024-01-15"))
        0 TypeId.DATE).2.exprs 0 = ⟨TypeId.DATE, Val.DateVal 19737⟩) ∧
    ((CheckAndTryPromoteType sampleEnv (oneConstant TypeId.VARCHAR (Val.StringVal "not-a-date"))
        0 TypeId.DATE).1
      = Outcome.threw (Exception.BINDER_EXCEPTION
          "Binder conversion from VARCHAR to DATE failed.") ∧
    (CheckAndTryPromoteType sampleEnv (oneConstant TypeId.VARCHAR (Val.StringVal "not-a-date"))
        0 TypeId.DATE).2 = oneConstant TypeId.VARCHAR (Val.StringVal "not-a-date")) :=
  ⟨(C10_text_to_date_timestamp sampleEnv
      (oneConstant TypeId.VARCHAR (Val.StringVal "2024-01-15")) 0 "2024-01-15" rfl rfl).1.2.1
      (by decide),
    (C10_text_to_date_timestamp sampleEnv
      (oneConstant TypeId.VARCHAR (Val.StringVal "not-a-date")) 0 "not-a-date" rfl rfl).1.2.2
      (by decide)⟩

/-! ## Coercion engine: further claims -/

/-- C11: NULL promotion. For a constant whose current type is `INVALID` and a target type
`T` other than `INVALID`, `CheckAndTryPromoteType` returns normally, and afterwards the node
has type `T` and a null payload; nothing else in the state changes. -/
theorem C11_null_promotion (env : Collaborators) (b : BinderSherpa) (value : Ptr) (T : TypeId)
    (hcur : GetReturnValueType b value = TypeId.INVALID) (hT : T ≠ TypeId.INVALID) :
    (CheckAndTryPromoteType env b value T).1 = Outcome.returned ∧
    (CheckAndTryPromoteType env b value T).2.exprs value = ⟨T, Val.Null⟩ ∧
    (CheckAndTryPromoteType env b value T).2 = SetValue b value T Val.Null := by
  have hne : TypeId.INVALID ≠ T := fun e => hT e.symm
  unfold CheckAndTryPromoteType
  simp [hcur, hne, SetValue]

/-- C11, at a NULL literal promoted to `DATE`. -/
theorem C11_null_promotion_witness :
    (CheckAndTryPromoteType sampleEnv (oneConstant TypeId.INVALID Val.Null) 0 TypeId.DATE).1
      = Outcome.returned ∧
    (CheckAndTryPromoteType sampleEnv (oneConstant TypeId.INVALID Val.Null) 0
      TypeId.DATE).2.exprs 0 = ⟨TypeId.DATE, Val.Null⟩ ∧
    (CheckAndTryPromoteType sampleEnv (oneConstant TypeId.INVALID Val.Null) 0 TypeId.DATE).2
      = SetValue (oneConstant TypeId.INVALID Val.Null) 0 TypeId.DATE Val.Null :=
  C11_null_promotion sampleEnv (oneConstant TypeId.INVALID Val.Null) 0 TypeId.DATE rfl
    (by decide)

/-- C12: no-op equality. When the target type equals the current type of the node,
`CheckAndTryPromoteType` returns normally and the state (type and payload of the node
included) is exactly the state on entry, whatever the payload and whatever the parsers
would answer: nothing is parsed or range-checked. -/
theorem C12_noop_equality (env : Collaborators) (b : BinderSherpa) (value : Ptr) (T : TypeId)
    (hcur : GetReturnValueType b value = T) :
    CheckAndTryPromoteType env b value T = (Outcome.returned, b) ∧
    (CheckAndTryPromoteType env b value T).2.exprs value = b.exprs value := by
  have h : CheckAndTryPromoteType env b value T = (Outcome.returned, b) := by
    unfold CheckAndTryPromoteType
    simp [hcur]
  exact ⟨h, by rw [h]⟩

/-- C12, at a `DATE` constant whose payload is an unparsable text, with target `DATE`. -/
theorem C12_noop_equality_witness :
    CheckAndTryPromoteType sampleEnv (oneConstant TypeId.DATE (Val.StringVal "not-a-date")) 0
        TypeId.DATE
      = (Outcome.returned, oneConstant TypeId.DATE (Val.StringVal "not-a-date")) ∧
    (CheckAndTryPromoteType sampleEnv (oneConstant TypeId.DATE (Val.StringVal "not-a-date")) 0
        TypeId.DATE).2.exprs 0
      = (oneConstant TypeId.DATE (Val.StringVal "not-a-date")).exprs 0 :=
  C12_noop_equality sampleEnv (oneConstant TypeId.DATE (Val.StringVal "not-a-date")) 0
    TypeId.DATE rfl

theorem TryCastNumeric_atomic (b : BinderSherpa) (p : Ptr) (bits : Nat) (v : Int) (t : TypeId) :
    ((TryCastNumeric b p bits v t).1 = Outcome.returned ∧
      GetReturnValueType (TryCastNumeric b p bits v t).2 p = t) ∨
    ((TryCastNumeric b p bits v t).1 ≠ Outcome.returned ∧ (TryCastNumeric b p bits v t).2 = b) := by
  unfold TryCastNumeric
  cases h : IsRepresentable bits v <;> simp [GetReturnValueType, SetValue]

theorem TryCastNumericAll_atomic (env : Collaborators) (b : BinderSherpa) (p : Ptr) (v : Int)
    (t : TypeId) :
    ((TryCastNumericAll env b p v t).1 = Outcome.returned ∧
      GetReturnValueType (TryCastNumericAll env b p v t).2 p = t) ∨
    ((TryCastNumericAll env b p v t).1 ≠ Outcome.returned ∧
      (TryCastNumericAll env b p v t).2 = b) := by
  cases t <;> simp only [TryCastNumericAll] <;>
    first
      | exact TryCastNumeric_atomic b p _ v _
      | simp [GetReturnValueType, SetValue]

theorem castVarcharToInt_atomic (b : BinderSherpa) (p : Ptr) (str : String) (bits : Nat)
    (t : TypeId) :
    ((castVarcharToInt b p str bits t).1 = Outcome.returned ∧
      GetReturnValueType (castVarcharToInt b p str bits t).2 p = t) ∨
    ((castVarcharToInt b p str bits t).1 ≠ Outcome.returned ∧
      (castVarcharToInt b p str bits t).2 = b) := by
  unfold castVarcharToInt
  cases hs : stol str with
  | error e => simp
  | ok v => cases hr : IsRepresentable bits v <;> simp [hr, GetReturnValueType, SetValue]

/-- C13: coercion is all or nothing. For every constant and every target type, after
`CheckAndTryPromoteType` either the call returned normally and the resolved type of the node
equals the target type, or the call threw and the state (type and payload of the node
included) is exactly the state on entry. -/
theorem C13_all_or_nothing (env : Collaborators) (b : BinderSherpa) (value : Ptr) (T : TypeId) :
    ((CheckAndTryPromoteType env b value T).1 = Outcome.returned ∧
      GetReturnValueType (CheckAndTryPromoteType env b value T).2 value = T) ∨
    ((CheckAndTryPromoteType env b value T).1 ≠ Outcome.returned ∧
      (CheckAndTryPromoteType env b value T).2 = b ∧
      (CheckAndTryPromoteType env b value T).2.exprs value = b.exprs value) := by
  have key : ((CheckAndTryPromoteType env b value T).1 = Outcome.returned ∧
        GetReturnValueType (CheckAndTryPromoteType env b value T).2 value = T) ∨
      ((CheckAndTryPromoteType env b value T).1 ≠ Outcome.returned ∧
        (CheckAndTryPromoteType env b value T).2 = b) := by
    unfold CheckAndTryPromoteType
    by_cases h : GetReturnValueType b value = T
    · simp [h]
    · simp only [ne_eq, h, not_false_eq_true, if_true]
      cases hc : GetReturnValueType b value with
      | INVALID => simp [GetReturnValueType, SetValue]
      | TINYINT =>
        cases hp : PeekInt 8 (b.exprs value) with
        | none => simp
        | some v => exact TryCastNumericAll_atomic env b value v T
      | SMALLINT =>
        cases hp : PeekInt 16 (b.exprs value) with
        | none => simp
        | some v => exact TryCastNumericAll_atomic env b value v T
      | INTEGER =>
        cases hp : PeekInt 32 (b.exprs value) with
        | none => simp
        | some v => exact TryCastNumericAll_atomic env b value v T
      | BIGINT =>
        cases hp : PeekInt 64 (b.exprs value) with
        | none => simp
        | some v => exact TryCastNumericAll_atomic env b value v T
      | VARCHAR =>
        cases hp : PeekString (b.exprs value) with
        | none => simp
        | some str =>
          cases T with
          | DATE => cases hd : (env.ParseDate str).1 <;> simp [hd, GetReturnValueType, SetValue]
          | TIMESTAMP =>
            cases hd : (env.ParseTimestamp str).1 <;> simp [hd, GetReturnValueType, SetValue]
          | TINYINT => exact castVarcharToInt_atomic b value str 8 _
          | SMALLINT => exact castVarcharToInt_atomic b value str 16 _
          | INTEGER => exact castVarcharToInt_atomic b value str 32 _
          | BIGINT => exact castVarcharToInt_atomic b value str 64 _
          | DECIMAL => cases hd : env.stod str <;> simp [hd, GetReturnValueType, SetValue]
          | INVALID => simp
          | VARCHAR => exact absurd hc h
      | DECIMAL => simp
      | DATE => simp
      | TIMESTAMP => simp
  rcases key with k | k
  · exact Or.inl k
  · exact Or.inr ⟨k.1, k.2, by rw [k.2]⟩

/-- C14: unsupported coercion paths fail. For a constant whose current type is `DECIMAL`,
`DATE` or `TIMESTAMP` and a target type different from it, `CheckAndTryPromoteType` throws
and leaves the state unchanged. For a `VARCHAR` constant and a target outside `VARCHAR`,
`DATE`, `TIMESTAMP`, `TINYINT`, `SMALLINT`, `INTEGER`, `BIGINT`, `DECIMAL` (so `INVALID`),
it throws whatever the text is and leaves the state unchanged. -/
theorem C14_unsupported_paths (env : Collaborators) (b : BinderSherpa) (value : Ptr)
    (T : TypeId) :
    ((GetReturnValueType b value = TypeId.DECIMAL ∨ GetReturnValueType b value = TypeId.DATE ∨
        GetReturnValueType b value = TypeId.TIMESTAMP) →
      T ≠ GetReturnValueType b value →
      (CheckAndTryPromoteType env b value T).1
        = Outcome.threw (Exception.BINDER_EXCEPTION
            "Binder conversion of expression type failed.") ∧
      (CheckAndTryPromoteType env b value T).2 = b) ∧
    (GetReturnValueType b value = TypeId.VARCHAR →
      T ∉ [TypeId.VARCHAR, TypeId.DATE, TypeId.TIMESTAMP, TypeId.TINYINT, TypeId.SMALLINT,
        TypeId.INTEGER, TypeId.BIGINT, TypeId.DECIMAL] →
      ∀ str, (b.exprs value).value_ = Val.StringVal str →
        (CheckAndTryPromoteType env b value T).1
          = Outcome.threw (Exception.BINDER_EXCEPTION
              "BinderSherpa VARCHAR cannot be cast to desired type.") ∧
        (CheckAndTryPromoteType env b value T).2 = b) := by
  constructor
  · intro hcur hT
    have hne : GetReturnValueType b value ≠ T := fun e => hT e.symm
    unfold CheckAndTryPromoteType
    rcases hcur with h | h | h <;> rw [h] at hne <;> simp [h, hne, ReportFailure]
  · intro hcur hT str hval
    unfold CheckAndTryPromoteType
    cases T <;> simp [hcur, PeekString, hval] at hT ⊢

/-- C14, at a `DECIMAL` constant with target `INTEGER`, and at the `VARCHAR` constant `12`
with target `INVALID`. -/
theorem C14_unsupported_paths_witness :
    ((CheckAndTryPromoteType sampleEnv (oneConstant TypeId.DECIMAL (Val.Real ⟨0⟩)) 0
        TypeId.INTEGER).1
      = Outcome.threw (Exception.BINDER_EXCEPTION
          "Binder conversion of expression type failed.") ∧
    (CheckAndTryPromoteType sampleEnv (oneConstant TypeId.DECIMAL (Val.Real ⟨0⟩)) 0
        TypeId.INTEGER).2 = oneConstant TypeId.DECIMAL (Val.Real ⟨0⟩)) ∧
    ((CheckAndTryPromoteType sampleEnv (oneConstant TypeId.VARCHAR (Val.StringVal "12")) 0
        TypeId.INVALID).1
      = Outcome.threw (Exception.BINDER_EXCEPTION
          "BinderSherpa VARCHAR cannot be cast to desired type.") ∧
    (CheckAndTryPromoteType sampleEnv (oneConstant TypeId.VARCHAR (Val.StringVal "12")) 0
        TypeId.INVALID).2 = oneConstant TypeId.VARCHAR (Val.StringVal "12")) :=
  ⟨(C14_unsupported_paths sampleEnv (oneConstant TypeId.DECIMAL (Val.Real ⟨0⟩)) 0
      TypeId.INTEGER).1 (Or.inl rfl) (by decide),
    (C14_unsupported_paths sampleEnv (oneConstant TypeId.VARCHAR (Val.StringVal "12")) 0
      TypeId.INVALID).2 rfl (by decide) "12" rfl⟩

/-! ## Reconciler: frame and no-write claims -/

theorem SetDesiredTypePair_exprs (b : BinderSherpa) (left right : Ptr) :
    (SetDesiredTypePair b left right).exprs = b.exprs := by
  unfold SetDesiredTypePair promote
  dsimp only
  split_ifs <;> rfl

theorem SetDesiredTypePair_eq_applyWrites (b : BinderSherpa) (left right : Ptr) :
    SetDesiredTypePair b left right = applyWrites b (SetDesiredTypePairWrites b left right) := by
  unfold SetDesiredTypePair SetDesiredTypePairWrites promote promoteWrites applyWrites
  dsimp only
  split_ifs <;> rfl

/-- C15: nothing is recorded between two distinct concrete non-quirk types. When the two
working types differ and neither is `INVALID`, `VARCHAR` or `INTEGER`, the call makes no
store write and the state after the call equals the state before. -/
theorem C15_no_write_between_concrete_types (b : BinderSherpa) (left right : Ptr)
    (hne : (workingTypes b left right).1 ≠ (workingTypes b left right).2)
    (hL : ¬ isQuirk (workingTypes b left right).1)
    (hR : ¬ isQuirk (workingTypes b left right).2) :
    SetDesiredTypePairWrites b left right = [] ∧
    SetDesiredTypePair b left right = b ∧
    (SetDesiredTypePair b left right).desired_expr_types_ = b.desired_expr_types_ := by
  have hw : SetDesiredTypePairWrites b left right = [] := by
    unfold SetDesiredTypePairWrites promoteWrites
    revert hne hL hR
    generalize (workingTypes b left right).1 = wL
    generalize (workingTypes b left right).2 = wR
    intro hne hL hR
    cases wL <;> cases wR <;> simp_all [isQuirk]
  have hs : SetDesiredTypePair b left right = b := by
    rw [SetDesiredTypePair_eq_applyWrites, hw]
    rfl
  exact ⟨hw, hs, by rw [hs]⟩

/-- C15, at two unconstrained nodes resolved `BIGINT` and `SMALLINT`. -/
theorem C15_no_write_witness :
    SetDesiredTypePairWrites (twoNodes TypeId.BIGINT TypeId.SMALLINT) 0 1 = [] ∧
    SetDesiredTypePair (twoNodes TypeId.BIGINT TypeId.SMALLINT) 0 1
      = twoNodes TypeId.BIGINT TypeId.SMALLINT ∧
    (SetDesiredTypePair (twoNodes TypeId.BIGINT TypeId.SMALLINT) 0 1).desired_expr_types_
      = (twoNodes TypeId.BIGINT TypeId.SMALLINT).desired_expr_types_ :=
  C15_no_write_between_concrete_types (twoNodes TypeId.BIGINT TypeId.SMALLINT) 0 1
    (by decide) (by decide) (by decide)

/-- C16: equal working types mean no write. When the two working types are equal (both
`INVALID` included), or when left and right are the same node, the call makes no store write
and the state after the call equals the state before. -/
theorem C16_no_write_on_equal_types (b : BinderSherpa) (left right : Ptr)
    (h : left = right ∨ (workingTypes b left right).1 = (workingTypes b left right).2) :
    SetDesiredTypePairWrites b left right = [] ∧
    SetDesiredTypePair b left right = b ∧
    (SetDesiredTypePair b left right).desired_expr_types_ = b.desired_expr_types_ := by
  have heq : (workingTypes b left right).1 = (workingTypes b left right).2 := by
    rcases h with h | h
    · subst h
      exact workingTypes_self b left
    · exact h
  have hw : SetDesiredTypePairWrites b left right = [] := by
    unfold SetDesiredTypePairWrites promoteWrites
    simp [heq]
  have hs : SetDesiredTypePair b left right = b := by
    rw [SetDesiredTypePair_eq_applyWrites, hw]
    rfl
  exact ⟨hw, hs, by rw [hs]⟩

/-- C16, at two unconstrained NULL literals (both working types `INVALID`). -/
theorem C16_no_write_on_equal_types_witness :
    SetDesiredTypePairWrites (twoNodes TypeId.INVALID TypeId.INVALID) 0 1 = [] ∧
    SetDesiredTypePair (twoNodes TypeId.INVALID TypeId.INVALID) 0 1
      = twoNodes TypeId.INVALID TypeId.INVALID ∧
    (SetDesiredTypePair (twoNodes TypeId.INVALID TypeId.INVALID) 0 1).desired_expr_types_
      = (twoNodes TypeId.INVALID TypeId.INVALID).desired_expr_types_ :=
  C16_no_write_on_equal_types (twoNodes TypeId.INVALID TypeId.INVALID) 0 1
    (Or.inr (by decide))

theorem promoteWrites_frame (left right : Ptr) (wL wR : TypeId) (hp : wL ≠ wR → left ≠ right) :
    (promoteWrites left right wL wR).length ≤ 2 ∧
    writesTo (promoteWrites left right wL wR) left ≤ 1 ∧
    writesTo (promoteWrites left right wL wR) right ≤ 1 ∧
    ∀ w ∈ promoteWrites left right wL wR, w.1 = left ∨ w.1 = right := by
  unfold promoteWrites writesTo
  by_cases h : wL = wR
  · simp [h]
  · have hlr : left ≠ right := hp h
    have hrl : right ≠ left := fun e => hlr e.symm
    simp only [ne_eq, h, not_false_eq_true, if_true]
    split_ifs <;> simp [hlr, hrl]

/-- C17: frame of `SetDesiredTypePair`. The call is a sequence of at most two store writes,
at most one to the key of left and at most one to the key of right, and to no other key;
the store entry of every other node is unchanged; the expression nodes (resolved type and
payload of every node) are unchanged. -/
theorem C17_frame (b : BinderSherpa) (left right : Ptr) :
    SetDesiredTypePair b left right = applyWrites b (SetDesiredTypePairWrites b left right) ∧
    (SetDesiredTypePairWrites b left right).length ≤ 2 ∧
    writesTo (SetDesiredTypePairWrites b left right) left ≤ 1 ∧
    writesTo (SetDesiredTypePairWrites b left right) right ≤ 1 ∧
    (∀ w ∈ SetDesiredTypePairWrites b left right, w.1 = left ∨ w.1 = right) ∧
    (∀ k, k ≠ left → k ≠ right →
      (SetDesiredTypePair b left right).desired_expr_types_ k = b.desired_expr_types_ k) ∧
    (SetDesiredTypePair b left right).exprs = b.exprs := by
  obtain ⟨h1, h2, h3, h4⟩ := promoteWrites_frame left right (workingTypes b left right).1
    (workingTypes b left right).2 (workingTypes_ne_ptr b left right)
  refine ⟨SetDesiredTypePair_eq_applyWrites b left right, h1, h2, h3, h4, ?_,
    SetDesiredTypePair_exprs b left right⟩
  intro k hkl hkr
  unfold SetDesiredTypePair promote
  dsimp only
  split_ifs <;> simp [SetDesiredType, hkl, hkr]

/-! ## End-to-end scenario and store invariants -/

theorem CheckAndTryPromoteType_of_INVALID (env : Collaborators) (b : BinderSherpa) (value : Ptr)
    (T : TypeId) (hcur : GetReturnValueType b value = TypeId.INVALID) (hT : T ≠ TypeId.INVALID) :
    CheckAndTryPromoteType env b value T = (Outcome.returned, SetValue b value T Val.Null) := by
  have hne : TypeId.INVALID ≠ T := fun e => hT e.symm
  unfold CheckAndTryPromoteType
  simp [hcur, hne]

theorem SetDesiredTypePair_of_null_left (b : BinderSherpa) (left right : Ptr) (T : TypeId)
    (hempty : StoreEmpty b) (hl : GetReturnValueType b left = TypeId.INVALID)
    (hr : GetReturnValueType b right = T) (hT : T ≠ TypeId.INVALID) :
    SetDesiredTypePairWrites b left right = [(left, T)] ∧
    SetDesiredTypePair b left right = SetDesiredType b left T := by
  have hw : workingTypes b left right = (TypeId.INVALID, T) := by
    rw [workingTypes_unconstrained b left right (hempty left) (hempty right), hl, hr]
  have hne : TypeId.INVALID ≠ T := fun e => hT e.symm
  have hwr : SetDesiredTypePairWrites b left right = [(left, T)] := by
    unfold SetDesiredTypePairWrites promoteWrites
    simp [hw, hne, hT]
  refine ⟨hwr, ?_⟩
  rw [SetDesiredTypePair_eq_applyWrites, hwr]
  rfl

/-- C18: end-to-end NULL scenario. Starting from an empty constraint store with left a
constant of resolved type `INVALID` and right a node of a concrete type `T`,
`SetDesiredTypePair left right` makes exactly the one write left to `T` (right and every
other node stay unconstrained); then `CheckAndTryPromoteType left T` returns normally and
makes left a null-valued node of type `T`; afterwards `CheckDesiredType` returns normally
on left and on right. -/
theorem C18_null_scenario (env : Collaborators) (b : BinderSherpa) (left right : Ptr)
    (T : TypeId)
    (hempty : StoreEmpty b) (hl : GetReturnValueType b left = TypeId.INVALID)
    (hr : GetReturnValueType b right = T) (hT : T ≠ TypeId.INVALID) :
    SetDesiredTypePairWrites b left right = [(left, T)] ∧
    (SetDesiredTypePair b left right).desired_expr_types_ left = some T ∧
    (∀ k, k ≠ left → (SetDesiredTypePair b left right).desired_expr_types_ k = none) ∧
    (SetDesiredTypePair b left right).desired_expr_types_ right = none ∧
    (CheckAndTryPromoteType env (SetDesiredTypePair b left right) left T).1
      = Outcome.returned ∧
    (CheckAndTryPromoteType env (SetDesiredTypePair b left right) left T).2.exprs left
      = ⟨T, Val.Null⟩ ∧
    (CheckDesiredType (CheckAndTryPromoteType env (SetDesiredTypePair b left right) left T).2
      left).1 = Outcome.returned ∧
    (CheckDesiredType (CheckAndTryPromoteType env (SetDesiredTypePair b left right) left T).2
      right).1 = Outcome.returned := by
  have hlr : right ≠ left := by
    intro e
    rw [e, hl] at hr
    exact hT hr.symm
  obtain ⟨hw, hs⟩ := SetDesiredTypePair_of_null_left b left right T hempty hl hr hT
  have hcur : GetReturnValueType (SetDesiredType b left T) left = TypeId.INVALID := hl
  have hother : ∀ k, k ≠ left → (SetDesiredType b left T).desired_expr_types_ k = none := by
    intro k hk
    rw [SetDesiredType_get_other b left k T hk]
    exact hempty k
  rw [hs, CheckAndTryPromoteType_of_INVALID env _ left T hcur hT]
  refine ⟨hw, SetDesiredType_get_same b left T, hother, hother right hlr, rfl,
    SetValue_exprs_same _ left T Val.Null, ?_, ?_⟩
  · simp [CheckDesiredType, SetValue, SetDesiredType, GetReturnValueType]
  · have hn : (SetDesiredType b left T).desired_expr_types_ right = none := hother right hlr
    simp [CheckDesiredType, SetValue, hn]

/-- C18, at the NULL literal next to the `INTEGER` literal 7. -/
theorem C18_null_scenario_witness :
    SetDesiredTypePairWrites nullAndSeven 0 1 = [(0, TypeId.INTEGER)] ∧
    (SetDesiredTypePair nullAndSeven 0 1).desired_expr_types_ 0 = some TypeId.INTEGER ∧
    (∀ k, k ≠ 0 → (SetDesiredTypePair nullAndSeven 0 1).desired_expr_types_ k = none) ∧
    (SetDesiredTypePair nullAndSeven 0 1).desired_expr_types_ 1 = none ∧
    (CheckAndTryPromoteType sampleEnv (SetDesiredTypePair nullAndSeven 0 1) 0 TypeId.INTEGER).1
      = Outcome.returned ∧
    (CheckAndTryPromoteType sampleEnv (SetDesiredTypePair nullAndSeven 0 1) 0
      TypeId.INTEGER).2.exprs 0 = ⟨TypeId.INTEGER, Val.Null⟩ ∧
    (CheckDesiredType (CheckAndTryPromoteType sampleEnv (SetDesiredTypePair nullAndSeven 0 1) 0
      TypeId.INTEGER).2 0).1 = Outcome.returned ∧
    (CheckDesiredType (CheckAndTryPromoteType sampleEnv (SetDesiredTypePair nullAndSeven 0 1) 0
      TypeId.INTEGER).2 1).1 = Outcome.returned :=
  C18_null_scenario sampleEnv nullAndSeven 0 1 TypeId.INTEGER (fun _ => rfl) rfl rfl
    (by decide)

theorem NoInvalidRequirement_SetDesiredType (b : BinderSherpa) (p : Ptr) (t : TypeId)
    (h : NoInvalidRequirement b) (ht : t ≠ TypeId.INVALID) :
    NoInvalidRequirement (SetDesiredType b p t) := by
  intro k
  by_cases hk : k = p
  · subst hk
    rw [SetDesiredType_get_same]
    intro e
    exact ht (Option.some.inj e)
  · rw [SetDesiredType_get_other b p k t hk]
    exact h k

theorem NoInvalidRequirement_SetDesiredTypePair (b : BinderSherpa) (left right : Ptr)
    (h : NoInvalidRequirement b) : NoInvalidRequirement (SetDesiredTypePair b left right) := by
  unfold SetDesiredTypePair promote
  dsimp only
  split_ifs with h0 h1 h2 h2
  · exact NoInvalidRequirement_SetDesiredType _ right _
      (NoInvalidRequirement_SetDesiredType b left _ h h2.1) h1.1
  · exact NoInvalidRequirement_SetDesiredType b right _ h h1.1
  · exact NoInvalidRequirement_SetDesiredType b left _ h h2.1
  · exact h
  · exact h

theorem NoInvalidRequirement_SetDesiredTypePairs (calls : List (Ptr × Ptr)) (b : BinderSherpa)
    (h : NoInvalidRequirement b) : NoInvalidRequirement (SetDesiredTypePairs b calls) := by
  induction calls generalizing b with
  | nil => exact h
  | cons c cs ih =>
    exact ih (SetDesiredTypePair b c.1 c.2) (NoInvalidRequirement_SetDesiredTypePair b c.1 c.2 h)

theorem NoInvalidRequirement_of_StoreEmpty (b : BinderSherpa) (h : StoreEmpty b) :
    NoInvalidRequirement b := by
  intro k
  rw [h k]
  exact fun e => Option.noConfusion e

/-- C19: `SetDesiredTypePair` never records `INVALID` as a required type. If the store holds
no entry with type `INVALID`, then for every pair of nodes the store after the call holds
none either, and so does the store after any sequence of calls; in particular every store
reached from the empty store by calls of `SetDesiredTypePair` holds no `INVALID` entry. -/
theorem C19_no_INVALID_requirement (b : BinderSherpa) (h : NoInvalidRequirement b) :
    (∀ left right, NoInvalidRequirement (SetDesiredTypePair b left right)) ∧
    (∀ calls, NoInvalidRequirement (SetDesiredTypePairs b calls)) ∧
    (∀ b0 calls, StoreEmpty b0 → NoInvalidRequirement (SetDesiredTypePairs b0 calls)) :=
  ⟨fun left right => NoInvalidRequirement_SetDesiredTypePair b left right h,
    fun calls => NoInvalidRequirement_SetDesiredTypePairs calls b h,
    fun b0 calls h0 =>
      NoInvalidRequirement_SetDesiredTypePairs calls b0 (NoInvalidRequirement_of_StoreEmpty b0 h0)⟩

/-- C19, from the empty store over a NULL literal and a `VARCHAR` node, reconciled twice. -/
theorem C19_no_INVALID_requirement_witness :
    NoInvalidRequirement
      (SetDesiredTypePairs (twoNodes TypeId.INVALID TypeId.VARCHAR) [(0, 1), (1, 0)]) :=
  (C19_no_INVALID_requirement (twoNodes TypeId.INVALID TypeId.VARCHAR)
    (fun _ e => Option.noConfusion e)).2.1 [(0, 1), (1, 0)]

theorem CheckDesiredType_outcome_of_store (b : BinderSherpa) (expr : Ptr) :
    (b.desired_expr_types_ expr = none → (CheckDesiredType b expr).1 = Outcome.returned) ∧
    (∀ t, b.desired_expr_types_ expr = some t → t ≠ GetReturnValueType b expr →
      (CheckDesiredType b expr).1 ≠ Outcome.returned) := by
  unfold CheckDesiredType
  constructor
  · intro h
    simp [h]
  · intro t h ht
    simp [h, ht]

theorem recorded_ne_resolved (b : BinderSherpa) (left right n : Ptr) (t : TypeId)
    (hl : b.desired_expr_types_ left = none) (hr : b.desired_expr_types_ right = none)
    (hn : n = left ∨ n = right)
    (ht : (SetDesiredTypePair b left right).desired_expr_types_ n = some t) :
    t ≠ GetReturnValueType b n := by
  have hw := workingTypes_unconstrained b left right hl hr
  by_cases hlr : left = right
  · subst hlr
    have hn2 : n = left := by rcases hn with h | h <;> exact h
    subst hn2
    have hs : SetDesiredTypePair b n n = b := by
      unfold SetDesiredTypePair promote
      simp [hw]
    rw [hs, hl] at ht
    exact Option.noConfusion ht
  · have hrl : right ≠ left := fun e => hlr e.symm
    rcases hn with h | h
    · rw [h] at ht ⊢
      revert ht
      simp only [SetDesiredTypePair, hw, promote]
      cases hL : GetReturnValueType b left <;> cases hR : GetReturnValueType b right <;>
        simp [SetDesiredType, hlr, hl] <;> intro e <;> subst e <;> decide
    · rw [h] at ht ⊢
      revert ht
      simp only [SetDesiredTypePair, hw, promote]
      cases hL : GetReturnValueType b left <;> cases hR : GetReturnValueType b right <;>
        simp [SetDesiredType, hrl, hr] <;> intro e <;> subst e <;> decide

/-- C20: no redundant constraint on an unconstrained pair. When neither left nor right has
a store entry, every constraint that `SetDesiredTypePair left right` leaves on left or right
is a type different from the resolved type of that node, so `CheckDesiredType` on that node
throws as long as its type is not changed; on an operand the call left unconstrained
`CheckDesiredType` returns normally; and on any node whose entry the call did not change,
`CheckDesiredType` ends as it did before the call. -/
theorem C20_no_redundant_constraint (b : BinderSherpa) (left right : Ptr)
    (hl : b.desired_expr_types_ left = none) (hr : b.desired_expr_types_ right = none) :
    (∀ n t, (n = left ∨ n = right) →
      (SetDesiredTypePair b left right).desired_expr_types_ n = some t →
      t ≠ GetReturnValueType b n ∧
      (CheckDesiredType (SetDesiredTypePair b left right) n).1 ≠ Outcome.returned) ∧
    (∀ n, (n = left ∨ n = right) →
      (SetDesiredTypePair b left right).desired_expr_types_ n = none →
      (CheckDesiredType (SetDesiredTypePair b left right) n).1 = Outcome.returned) ∧
    (∀ k, (SetDesiredTypePair b left right).desired_expr_types_ k = b.desired_expr_types_ k →
      (CheckDesiredType (SetDesiredTypePair b left right) k).1 = (CheckDesiredType b k).1) := by
  have hex : ∀ k, GetReturnValueType (SetDesiredTypePair b left right) k
      = GetReturnValueType b k := by
    intro k
    unfold GetReturnValueType
    rw [SetDesiredTypePair_exprs]
  refine ⟨?_, ?_, ?_⟩
  · intro n t hn ht
    have hne := recorded_ne_resolved b left right n t hl hr hn ht
    refine ⟨hne, ?_⟩
    apply (CheckDesiredType_outcome_of_store _ n).2 t ht
    rw [hex n]
    exact hne
  · intro n _ h
    exact (CheckDesiredType_outcome_of_store _ n).1 h
  · intro k hk
    unfold CheckDesiredType
    rw [hk, hex k]
    cases b.desired_expr_types_ k with
    | none => rfl
    | some t => by_cases ht : t = GetReturnValueType b k <;> simp [ht]

/-- C20, at a NULL literal next to a `DATE` node: the constraint `DATE` recorded on the
literal differs from its resolved type `INVALID`, and `CheckDesiredType` on it throws. -/
theorem C20_no_redundant_constraint_witness :
    TypeId.DATE ≠ GetReturnValueType (twoNodes TypeId.INVALID TypeId.DATE) 0 ∧
    (CheckDesiredType (SetDesiredTypePair (twoNodes TypeId.INVALID TypeId.DATE) 0 1) 0).1
      ≠ Outcome.returned :=
  (C20_no_redundant_constraint (twoNodes TypeId.INVALID TypeId.DATE) 0 1 rfl rfl).1 0
    TypeId.DATE (Or.inl rfl) (by decide)

end terrier.binder
